import Mathlib

/-!
Verification of the plant-margin simulator (`src/app_simple.py`).

The development shallowly embeds the financial computation engine
(`compute_metrics`), the fixed `BASELINE` parameter set, the formatting
helpers (`arrow`, `delta_class`, `colorize`, `money0`, `money2` and the
Python `format`-spec renderings they rely on) and the grouped comparison
table builder (`rows`).  Real numbers are modelled by `ℚ`; Python's
f-string numeric formatting is modelled exactly (round-half-even,
thousands grouping) over `ℚ`.
-/

/-- The ten operating/cost parameters fed to the engine.  Field names match
the keyword arguments of `compute_metrics` in `src/app_simple.py`. -/
structure ScenarioParameters where
  price_per_ton : ℚ
  run_rate_tph : ℚ
  planned_hours_per_month : ℚ
  downtime_hours : ℚ
  yield_pct : ℚ
  energy_cost_per_ton : ℚ
  labor_cost_per_ton : ℚ
  scrap_pct : ℚ
  other_variable_cost_per_ton : ℚ
  fixed_cost_per_month : ℚ
  deriving DecidableEq

/-- The twelve derived metrics returned by `compute_metrics` (the Python
code returns them as a dict; the key strings are recovered by
`metricGet`). -/
structure MetricsResult where
  operating_hours : ℚ
  tons_processed : ℚ
  net_saleable_tons : ℚ
  revenue : ℚ
  variable_cost : ℚ
  contribution : ℚ
  contribution_pct : ℚ
  fixed_cost : ℚ
  ebitda : ℚ
  ebitda_pct : ℚ
  var_cost_per_ton : ℚ
  contribution_per_ton : ℚ
  deriving DecidableEq

/-- `clamp(x, lo, hi) = max(lo, min(hi, x))` from `src/app_simple.py`. -/
def clamp (x lo hi : ℚ) : ℚ := max lo (min hi x)

/-- The fixed baseline parameter set `BASELINE` of `src/app_simple.py`. -/
def BASELINE : ScenarioParameters where
  price_per_ton := 500
  run_rate_tph := 120
  planned_hours_per_month := 600
  downtime_hours := 40
  yield_pct := 95
  energy_cost_per_ton := 35
  labor_cost_per_ton := 25
  scrap_pct := 1
  other_variable_cost_per_ton := 60
  fixed_cost_per_month := 2000000

/-- The core financial engine `compute_metrics` of `src/app_simple.py`.
Python's `x if cond else y` guards on a nonzero denominator become
`if _ = 0 then 0 else _`. -/
def compute_metrics (p : ScenarioParameters) : MetricsResult :=
  let downtime_hours := max 0 (min p.downtime_hours p.planned_hours_per_month)
  let operating_hours := p.planned_hours_per_month - downtime_hours
  let tons_processed := p.run_rate_tph * operating_hours
  let yield_frac := clamp (p.yield_pct / 100) 0.50 1.00
  let scrap_frac := clamp (p.scrap_pct / 100) 0.0 0.20
  let saleable_tons := tons_processed * yield_frac
  let net_saleable_tons := saleable_tons * (1.0 - scrap_frac)
  let revenue := net_saleable_tons * p.price_per_ton
  let variable_cost := tons_processed *
    (p.energy_cost_per_ton + p.labor_cost_per_ton + p.other_variable_cost_per_ton)
  let contribution := revenue - variable_cost
  let ebitda := contribution - p.fixed_cost_per_month
  { operating_hours := operating_hours
    tons_processed := tons_processed
    net_saleable_tons := net_saleable_tons
    revenue := revenue
    variable_cost := variable_cost
    contribution := contribution
    contribution_pct := if revenue = 0 then 0 else contribution / revenue * 100
    fixed_cost := p.fixed_cost_per_month
    ebitda := ebitda
    ebitda_pct := if revenue = 0 then 0 else ebitda / revenue * 100
    var_cost_per_ton := if tons_processed = 0 then 0 else variable_cost / tons_processed
    contribution_per_ton := if tons_processed = 0 then 0 else contribution / tons_processed }

example : (compute_metrics BASELINE).net_saleable_tons = 316008/5 := by
  norm_num [compute_metrics, BASELINE, clamp]

example : (compute_metrics BASELINE).contribution_pct = 46700/627 := by
  norm_num [compute_metrics, BASELINE, clamp]

/-! ### Formatting helpers

Python renders numbers with format specs `,.0f`, `,.2f` and `.2f`:
round-half-even at the requested number of decimals, thousands separators
for the comma variants.  We model this exactly over `ℚ`, computing on the
numerator/denominator pair so the definitions kernel-evaluate. -/

/-- Round-half-even of the fraction `n / d` (`d > 0`), the rounding used by
Python's fixed-point `format` specs. -/
def roundHalfEvenFrac (n d : ℤ) : ℤ :=
  let f := Int.fdiv n d
  let r2 := 2 * (n - f * d)
  if r2 < d then f
  else if d < r2 then f + 1
  else if f % 2 = 0 then f else f + 1

/-- Round-half-even of `s * q` for a rational `q` and integer scale `s`. -/
def roundScaled (q : ℚ) (s : ℤ) : ℤ := roundHalfEvenFrac (s * q.num) q.den

/-- Insert a `,` before every third digit of a least-significant-first
digit list (position argument counts digits already emitted). -/
def commasRevAux : List Char → Nat → List Char
  | [], _ => []
  | c :: cs, i =>
    if i ≠ 0 ∧ i % 3 = 0 then ',' :: c :: commasRevAux cs (i + 1)
    else c :: commasRevAux cs (i + 1)

/-- Decimal digits of `n` with thousands separators, e.g. `31,600,800`. -/
def groupThousands (n : Nat) : String :=
  String.mk (commasRevAux (Nat.toDigits 10 n).reverse 0).reverse

/-- Python `f"\x7bx:,.0f\x7d"`: thousands-grouped, zero decimals.  The sign
is taken from the unrounded value (Python renders `-0.4` as `-0`). -/
def fmtComma0 (x : ℚ) : String :=
  (if x < 0 then "-" else "") ++ groupThousands (roundScaled x 1).natAbs

/-- Exactly two decimal digits, zero-padded. -/
def twoDigits (n : Nat) : String :=
  String.mk [Nat.digitChar (n / 10 % 10), Nat.digitChar (n % 10)]

/-- Python `f"\x7bx:,.2f\x7d"`: thousands-grouped, two decimals. -/
def fmtComma2 (x : ℚ) : String :=
  let s := (roundScaled x 100).natAbs
  (if x < 0 then "-" else "") ++ groupThousands (s / 100) ++ "." ++ twoDigits (s % 100)

/-- Python `f"\x7bx:.2f\x7d"`: two decimals, no thousands separator. -/
def fmtPlain2 (x : ℚ) : String :=
  let s := (roundScaled x 100).natAbs
  (if x < 0 then "-" else "") ++ String.mk (Nat.toDigits 10 (s / 100)) ++ "." ++ twoDigits (s % 100)

/-- `money0` from `src/app_simple.py`: `f"$\x7bx:,.0f\x7d"`. -/
def money0 (x : ℚ) : String := "$" ++ fmtComma0 x

/-- `money2` from `src/app_simple.py`: `f"$\x7bx:,.2f\x7d"`. -/
def money2 (x : ℚ) : String := "$" ++ fmtComma2 x

/-- The default tolerance `1e-9` of `arrow` and `delta_class`. -/
def defaultTol : ℚ := 1 / 1000000000

/-- `arrow` from `src/app_simple.py`. -/
def arrow (delta tol : ℚ) : String :=
  if delta > tol then "▲"
  else if delta < -tol then "▼"
  else "●"

/-- `delta_class` from `src/app_simple.py`. -/
def delta_class (delta tol : ℚ) : String :=
  if delta > tol then "pos"
  else if delta < -tol then "neg"
  else "neu"

/-- `value_class` from `src/app_simple.py`. -/
def value_class (val : ℚ) : String := if val > 0 then "neutral" else "neg"

/-- `colorize` from `src/app_simple.py` (with `delta_class` at its default
tolerance). -/
def colorize (text : String) (delta : ℚ) : String :=
  "<span class=\x27" ++ delta_class delta defaultTol ++ "\x27>" ++ text ++ "</span>"

example : money0 (31600800 : ℚ) = "$31,600,800" := by decide

/-! ### Grouped comparison table -/

/-- `FORMULAS` from `src/app_simple.py`. -/
def FORMULAS : List (String × String) :=
  [("Revenue", "Unit Price × Net Saleable Tons"),
   ("Variable cost", "Processed Tons × (Energy + Labor + Other)"),
   ("Contribution", "Revenue − Variable Cost"),
   ("Contribution %", "Contribution ÷ Revenue"),
   ("EBITDA", "Contribution − Fixed Cost"),
   ("EBITDA %", "EBITDA ÷ Revenue"),
   ("Var cost / processed ton", "Variable Cost ÷ Processed Tons"),
   ("Contribution / processed ton", "Contribution ÷ Processed Tons")]

/-- `GROUPS` from `src/app_simple.py` (a Python dict, which preserves
insertion order). -/
def GROUPS : List (String × List String) :=
  [("Production & Time", ["Operating hours", "Tons processed", "Net saleable tons"]),
   ("Costs", ["Variable cost", "Fixed cost"]),
   ("Financial Results",
      ["Revenue", "Contribution", "Contribution %", "EBITDA", "EBITDA %"]),
   ("Unit Economics", ["Var cost / processed ton", "Contribution / processed ton"])]

/-- Lookup `r[m]` on the metric dict returned by `compute_metrics`.  Every
key used in `GROUPS` is among the twelve declared keys, so the final
`else 0` branch is unreachable from the table builder (Python would raise
`KeyError` there). -/
def metricGet (r : MetricsResult) (m : String) : ℚ :=
  if m = "Operating hours" then r.operating_hours
  else if m = "Tons processed" then r.tons_processed
  else if m = "Net saleable tons" then r.net_saleable_tons
  else if m = "Revenue" then r.revenue
  else if m = "Variable cost" then r.variable_cost
  else if m = "Contribution" then r.contribution
  else if m = "Contribution %" then r.contribution_pct
  else if m = "Fixed cost" then r.fixed_cost
  else if m = "EBITDA" then r.ebitda
  else if m = "EBITDA %" then r.ebitda_pct
  else if m = "Var cost / processed ton" then r.var_cost_per_ton
  else if m = "Contribution / processed ton" then r.contribution_per_ton
  else 0

/-- One row of the comparison table (the dict
`\x7b"Metric": _, "Baseline": _, "Current": _, "Delta": _\x7d`). -/
structure Row where
  Metric : String
  Baseline : String
  Current : String
  Delta : String
  deriving DecidableEq

/-- The unit-class dispatch shared verbatim by both loop bodies in
`src/app_simple.py` (lines 298–313 and 339–354): produces
`(base_str, curr_str, delta_str)`. -/
def fmtStrings (m : String) (b c d : ℚ) : String × String × String :=
  if m = "Contribution %" ∨ m = "EBITDA %" then
    (fmtPlain2 b ++ "%", fmtPlain2 c ++ "%", fmtPlain2 d ++ " pts")
  else if m = "Var cost / processed ton" ∨ m = "Contribution / processed ton" then
    (money2 b, money2 c, money2 d)
  else if m = "Operating hours" ∨ m = "Tons processed" ∨ m = "Net saleable tons" then
    (fmtComma0 b, fmtComma0 c, fmtComma0 d)
  else
    (money0 b, money0 c, money0 d)

/-- Body of the first metric loop (lines 293–331): the baseline cell is
augmented with the formula annotation when the metric is in `FORMULAS`. -/
def metricRowPass1 (base curr : MetricsResult) (m : String) : Row :=
  let b := metricGet base m
  let c := metricGet curr m
  let d := c - b
  let s := fmtStrings m b c d
  let baseline_display :=
    match FORMULAS.lookup m with
    | some f =>
        s.1 ++ "<div style=\x27font-size:12px; color:#9ca3af; margin-top:4px;\x27>(" ++
          m ++ " = " ++ f ++ ")</div>"
    | none => s.1
  { Metric := m
    Baseline := baseline_display
    Current := colorize (s.2.1 ++ " " ++ arrow d defaultTol) d
    Delta := colorize s.2.2 d }

/-- Body of the second (duplicated) metric loop (lines 334–361): identical
to the first except the baseline cell is the bare `base_str`. -/
def metricRowPass2 (base curr : MetricsResult) (m : String) : Row :=
  let b := metricGet base m
  let c := metricGet curr m
  let d := c - b
  let s := fmtStrings m b c d
  { Metric := m
    Baseline := s.1
    Current := colorize (s.2.1 ++ " " ++ arrow d defaultTol) d
    Delta := colorize s.2.2 d }

/-- The `rows` list built in `src/app_simple.py` lines 288–361: for each
group, a header pseudo-row, then the group's metrics rendered by the loop
at lines 293–331, then rendered again by the duplicate loop at lines
334–361. -/
def rows (base curr : MetricsResult) : List Row :=
  GROUPS.flatMap fun g =>
    { Metric := "<b>" ++ g.1 ++ "</b>", Baseline := "", Current := "", Delta := "" } ::
      (g.2.map (metricRowPass1 base curr) ++ g.2.map (metricRowPass2 base curr))

/-- Spec §3 data-model domain for `ScenarioParameters`: all ten fields are
non-negative reals, with `yield_pct` and `scrap_pct` declared as 0–100
percentages. -/
structure ScenarioParameters.Wf (p : ScenarioParameters) : Prop where
  price_nonneg : 0 ≤ p.price_per_ton
  run_rate_nonneg : 0 ≤ p.run_rate_tph
  planned_nonneg : 0 ≤ p.planned_hours_per_month
  downtime_nonneg : 0 ≤ p.downtime_hours
  yield_nonneg : 0 ≤ p.yield_pct
  yield_le : p.yield_pct ≤ 100
  energy_nonneg : 0 ≤ p.energy_cost_per_ton
  labor_nonneg : 0 ≤ p.labor_cost_per_ton
  scrap_nonneg : 0 ≤ p.scrap_pct
  scrap_le : p.scrap_pct ≤ 100
  other_nonneg : 0 ≤ p.other_variable_cost_per_ton
  fixed_nonneg : 0 ≤ p.fixed_cost_per_month

/-- The baseline metrics, as the app computes them
(`baseline = compute_metrics(**BASELINE)`). -/
def baselineMetrics : MetricsResult := compute_metrics BASELINE

/-- Explicit value of the baseline metrics, with every field a closed
rational literal. -/
lemma baselineMetrics_eq :
    baselineMetrics =
      { operating_hours := 560
        tons_processed := 67200
        net_saleable_tons := 316008/5
        revenue := 31600800
        variable_cost := 8064000
        contribution := 23536800
        contribution_pct := 46700/627
        fixed_cost := 2000000
        ebitda := 21536800
        ebitda_pct := 2692100/39501
        var_cost_per_ton := 120
        contribution_per_ton := 1401/4 } := by
  norm_num [baselineMetrics, compute_metrics, BASELINE, clamp, MetricsResult.mk.injEq]

/-! ### Claims -/

/-- Claim C1: the row sequence should contain exactly 4 group headers, each
immediately followed by exactly one row per declared metric with no metric
row repeated.  The code violates this: the metric loop of lines 293–331 is
followed by a verbatim duplicate (lines 334–361), so for every pair of
inputs each header is followed by the group's metric rows **twice** (28
rows instead of 16).  This theorem evaluates the row builder's metric
column for arbitrary inputs and exhibits the duplicated sequence. -/
theorem C1_rows_metric_sequence_duplicated (b c : MetricsResult) :
    (rows b c).map Row.Metric =
      ["<b>Production & Time</b>",
       "Operating hours", "Tons processed", "Net saleable tons",
       "Operating hours", "Tons processed", "Net saleable tons",
       "<b>Costs</b>",
       "Variable cost", "Fixed cost", "Variable cost", "Fixed cost",
       "<b>Financial Results</b>",
       "Revenue", "Contribution", "Contribution %", "EBITDA", "EBITDA %",
       "Revenue", "Contribution", "Contribution %", "EBITDA", "EBITDA %",
       "<b>Unit Economics</b>",
       "Var cost / processed ton", "Contribution / processed ton",
       "Var cost / processed ton", "Contribution / processed ton"] ∧
    ((rows b c).filter (fun r => r.Metric == "Revenue")).length = 2 := by
  constructor <;> rfl

/-- Claim C2, as stated, is false: the spec's reference-scenario arithmetic
miscomputes `67200 × 0.95 × 0.99` as `63,223.2`; the engine returns
`63,201.6`, and the revenue/contribution/EBITDA figures shift accordingly. -/
theorem C2_counterexample :
    ¬ ((compute_metrics BASELINE).net_saleable_tons = 63223.2 ∧
       (compute_metrics BASELINE).revenue = 31611600 ∧
       (compute_metrics BASELINE).contribution = 23547600 ∧
       (compute_metrics BASELINE).ebitda = 21547600) := by
  intro h
  have := h.1
  norm_num [compute_metrics, BASELINE, clamp] at this

/-- Claim C2 (amended): on the baseline parameter set the engine returns
`operating_hours = 560`, `tons_processed = 67,200`,
`net_saleable_tons = 67200 × 0.95 × 0.99 = 63,201.6`,
`revenue = 63201.6 × 500 = 31,600,800`, `variable_cost = 67200 × 120 =
8,064,000`, `contribution = 23,536,800` and `ebitda = 21,536,800`. -/
theorem C2_reference_scenario :
    (compute_metrics BASELINE).operating_hours = 560 ∧
    (compute_metrics BASELINE).tons_processed = 67200 ∧
    (compute_metrics BASELINE).net_saleable_tons = 63201.6 ∧
    (compute_metrics BASELINE).revenue = 31600800 ∧
    (compute_metrics BASELINE).variable_cost = 8064000 ∧
    (compute_metrics BASELINE).contribution = 23536800 ∧
    (compute_metrics BASELINE).ebitda = 21536800 := by
  norm_num [compute_metrics, BASELINE, clamp]

/-- Claim C3, as stated, is false: `delta_class` uses strict comparisons
(`delta > tol`), so a delta exactly equal to the tolerance `1e-9` is
classified neutral, not positive (and `-1e-9` neutral, not negative). -/
theorem C3_counterexample :
    ¬ (delta_class (1/1000000000) defaultTol = "pos" ∧
       delta_class 0 defaultTol = "neu" ∧
       delta_class (-(1/1000000000)) defaultTol = "neg") := by
  intro h
  have := h.1
  rw [delta_class, if_neg (by norm_num [defaultTol]), if_neg (by norm_num [defaultTol])] at this
  exact absurd this (by decide)

/-- Claim C3 (amended): with tolerance `1e-9`, the classification maps
`+1e-9`, `0` and `-1e-9` all to neutral, because the comparisons are
strict; only deltas strictly beyond the tolerance classify as positive or
negative (e.g. `+2e-9 → pos`, `-2e-9 → neg`). -/
theorem C3_sign_classification_boundary :
    delta_class (1/1000000000) defaultTol = "neu" ∧
    delta_class 0 defaultTol = "neu" ∧
    delta_class (-(1/1000000000)) defaultTol = "neu" ∧
    delta_class (2/1000000000) defaultTol = "pos" ∧
    delta_class (-(2/1000000000)) defaultTol = "neg" := by
  refine ⟨?_, ?_, ?_, ?_, ?_⟩ <;>
    simp only [delta_class, defaultTol] <;> norm_num



/-- Claim C4: with `planned_hours_per_month = downtime_hours` (zero
operating hours), the engine returns zero processed tons, zero revenue and
zeros for all four guarded ratios; totality of `compute_metrics` is
intrinsic to the embedding (every division is guarded by an
`if _ = 0` test, mirroring the Python conditionals). -/
theorem C4_zero_operating_hours (p : ScenarioParameters) (hw : p.Wf)
    (h : p.planned_hours_per_month = p.downtime_hours) :
    (compute_metrics p).tons_processed = 0 ∧
    (compute_metrics p).revenue = 0 ∧
    (compute_metrics p).contribution_pct = 0 ∧
    (compute_metrics p).ebitda_pct = 0 ∧
    (compute_metrics p).var_cost_per_ton = 0 ∧
    (compute_metrics p).contribution_per_ton = 0 := by
  simp only [compute_metrics, clamp]
  rw [← h, min_self, max_eq_right hw.planned_nonneg, sub_self]
  norm_num

/-- Concrete instance of C4: the baseline scenario with downtime raised to
the full 600 planned hours. -/
def zeroHoursParams : ScenarioParameters :=
  { BASELINE with downtime_hours := 600 }

/-- Witness for C4 at `zeroHoursParams`. -/
theorem C4_witness :
    (compute_metrics zeroHoursParams).tons_processed = 0 ∧
    (compute_metrics zeroHoursParams).revenue = 0 ∧
    (compute_metrics zeroHoursParams).contribution_pct = 0 ∧
    (compute_metrics zeroHoursParams).ebitda_pct = 0 ∧
    (compute_metrics zeroHoursParams).var_cost_per_ton = 0 ∧
    (compute_metrics zeroHoursParams).contribution_per_ton = 0 :=
  C4_zero_operating_hours zeroHoursParams
    (by constructor <;> norm_num [zeroHoursParams, BASELINE]) rfl

/-- Claim C5: out-of-range inputs are equivalent to their clamp boundary:
excess downtime behaves like downtime equal to planned hours, `yield_pct =
40` like `yield_pct = 50`, and `scrap_pct = 50` like `scrap_pct = 20`. -/
theorem C5_clamp_boundary_equivalences (p : ScenarioParameters) :
    (p.planned_hours_per_month < p.downtime_hours →
      compute_metrics p =
        compute_metrics { p with downtime_hours := p.planned_hours_per_month }) ∧
    compute_metrics { p with yield_pct := 40 } =
      compute_metrics { p with yield_pct := 50 } ∧
    compute_metrics { p with scrap_pct := 50 } =
      compute_metrics { p with scrap_pct := 20 } := by
  refine ⟨fun h => ?_, ?_, ?_⟩
  · simp only [compute_metrics, clamp]
    rw [min_eq_right h.le, min_self]
  · simp only [compute_metrics, clamp, MetricsResult.mk.injEq]
    norm_num [min_def, max_def]
  · simp only [compute_metrics, clamp, MetricsResult.mk.injEq]
    norm_num [min_def, max_def]

/-- Concrete instance for C5: baseline with 700 downtime hours against 600
planned hours. -/
def overDowntimeParams : ScenarioParameters :=
  { BASELINE with downtime_hours := 700 }

/-- Witness for C5 at `overDowntimeParams` (and `BASELINE` for the
yield/scrap parts). -/
theorem C5_witness :
    (compute_metrics overDowntimeParams =
      compute_metrics { overDowntimeParams with
                          downtime_hours := overDowntimeParams.planned_hours_per_month }) ∧
    compute_metrics { BASELINE with yield_pct := 40 } =
      compute_metrics { BASELINE with yield_pct := 50 } ∧
    compute_metrics { BASELINE with scrap_pct := 50 } =
      compute_metrics { BASELINE with scrap_pct := 20 } :=
  ⟨(C5_clamp_boundary_equivalences overDowntimeParams).1
      (by norm_num [overDowntimeParams, BASELINE]),
   (C5_clamp_boundary_equivalences BASELINE).2.1,
   (C5_clamp_boundary_equivalences BASELINE).2.2⟩

/-- Claim C6: for every parameter set, `variable_cost` equals
`tons_processed × (energy + labor + other)` — variable cost scales with
total processed tons, not net saleable tons. -/
theorem C6_variable_cost_from_processed_tons (p : ScenarioParameters) :
    (compute_metrics p).variable_cost =
      (compute_metrics p).tons_processed *
        (p.energy_cost_per_ton + p.labor_cost_per_ton + p.other_variable_cost_per_ton) :=
  rfl

/-- Claim C7: `compute_metrics` is deterministic — two calls on the same
`ScenarioParameters` yield identical `MetricsResult` values (the embedded
engine is a pure function). -/
theorem C7_deterministic (p : ScenarioParameters) :
    compute_metrics p = compute_metrics p :=
  rfl

/-- Claim C8: the claim says **every** baseline cell of a formula metric's
row carries the formula annotation.  The code violates this: the duplicate
metric loop (lines 334–361) renders each metric a second time with a bare
baseline cell.  Evaluating the table on the baseline metrics: the
first-pass Revenue row (index 13) carries the formula annotation, but the
second-pass Revenue row (index 18) is a plain `$31,600,800`. -/
theorem C8_second_pass_drops_formula :
    ((rows baselineMetrics baselineMetrics).getD 13 ⟨"", "", "", ""⟩).Metric = "Revenue" ∧
    ((rows baselineMetrics baselineMetrics).getD 13 ⟨"", "", "", ""⟩).Baseline =
      "$31,600,800<div style=\x27font-size:12px; color:#9ca3af; margin-top:4px;\x27>(Revenue = Unit Price × Net Saleable Tons)</div>" ∧
    ((rows baselineMetrics baselineMetrics).getD 18 ⟨"", "", "", ""⟩).Metric = "Revenue" ∧
    ((rows baselineMetrics baselineMetrics).getD 18 ⟨"", "", "", ""⟩).Baseline =
      "$31,600,800" := by
  rw [baselineMetrics_eq]
  refine ⟨rfl, ?_, rfl, ?_⟩ <;> decide

/-- Claim C9: the arrow glyph and the sign class always agree — for every
delta, `arrow` yields `▲`/`▼`/`●` exactly when `delta_class` yields
`pos`/`neg`/`neu` (both at the shared default tolerance `1e-9`). -/
theorem C9_arrow_agrees_with_delta_class (d : ℚ) :
    (arrow d defaultTol = "▲" ↔ delta_class d defaultTol = "pos") ∧
    (arrow d defaultTol = "▼" ↔ delta_class d defaultTol = "neg") ∧
    (arrow d defaultTol = "●" ↔ delta_class d defaultTol = "neu") := by
  unfold arrow delta_class
  by_cases h1 : d > defaultTol
  · simp only [if_pos h1]; decide
  · by_cases h2 : d < -defaultTol
    · simp only [if_neg h1, if_pos h2]; decide
    · simp only [if_neg h1, if_neg h2]; decide

/-- Bounds for `T * yf * (1.0 - sf)` when `yf ∈ [1/2, 1]` and
`sf ∈ [0, 1/5]`. -/
lemma net_tons_bounds_aux (T yf sf : ℚ) (hT : 0 ≤ T) (hy1 : 1/2 ≤ yf)
    (hy2 : yf ≤ 1) (hs1 : 0 ≤ sf) (hs2 : sf ≤ 1/5) :
    0 ≤ 0.4 * T ∧ 0.4 * T ≤ T * yf * (1.0 - sf) ∧ T * yf * (1.0 - sf) ≤ T := by
  have hyf0 : 0 ≤ yf := le_trans (by norm_num) hy1
  have key : 2/5 ≤ yf * (1 - sf) := by nlinarith
  have one : yf * (1 - sf) ≤ 1 := by nlinarith
  refine ⟨by nlinarith, ?_, ?_⟩
  · nlinarith [mul_le_mul_of_nonneg_left key hT]
  · nlinarith [mul_le_mul_of_nonneg_left one hT]

/-- Claim C10: whenever `run_rate_tph` and `planned_hours_per_month` are
non-negative, the yield clamp to `[0.50, 1.00]` and the scrap clamp to
`[0.00, 0.20]` force `0 ≤ 0.4 × tons_processed ≤ net_saleable_tons ≤
tons_processed`, for any `yield_pct` and `scrap_pct` whatsoever. -/
theorem C10_net_saleable_tons_bounds (p : ScenarioParameters)
    (h1 : 0 ≤ p.run_rate_tph) (h2 : 0 ≤ p.planned_hours_per_month) :
    0 ≤ 0.4 * (compute_metrics p).tons_processed ∧
    0.4 * (compute_metrics p).tons_processed ≤ (compute_metrics p).net_saleable_tons ∧
    (compute_metrics p).net_saleable_tons ≤ (compute_metrics p).tons_processed := by
  have hop : 0 ≤ p.planned_hours_per_month -
      max 0 (min p.downtime_hours p.planned_hours_per_month) :=
    sub_nonneg.mpr (max_le h2 (min_le_right _ _))
  simp only [compute_metrics, clamp]
  exact net_tons_bounds_aux _ _ _ (mul_nonneg h1 hop)
    (le_trans (by norm_num) (le_max_left _ _))
    (max_le (by norm_num) (le_trans (min_le_left _ _) (by norm_num)))
    (le_trans (by norm_num) (le_max_left _ _))
    (max_le (by norm_num) (le_trans (min_le_left _ _) (by norm_num)))

/-- Witness for C10 at the baseline parameter set. -/
theorem C10_witness :
    0 ≤ 0.4 * (compute_metrics BASELINE).tons_processed ∧
    0.4 * (compute_metrics BASELINE).tons_processed ≤
      (compute_metrics BASELINE).net_saleable_tons ∧
    (compute_metrics BASELINE).net_saleable_tons ≤
      (compute_metrics BASELINE).tons_processed :=
  C10_net_saleable_tons_bounds BASELINE (by norm_num [BASELINE]) (by norm_num [BASELINE])
